import Mathlib

/-!
# Offline-first cache and sync-queue reconciliation layer

Shallow embedding of the repository's `storageService` module
(`services/storageService.ts`) and of the data-loading / mutation
orchestration in the application shell (`App.tsx`), together with theorems
settling the frozen claims about them.

Modelling conventions:

* `localStorage` and the service's `inMemoryStorage` map are association
  lists from string keys to `CachedData` entries.  The source serializes
  entries through `JSON.stringify` / `JSON.parse`; since that round-trip is
  the identity on the JSON data the service writes, the stores hold the
  structured entries directly.  The `JSON.parse` failure branch of `get`
  (malformed data treated as a miss) is therefore not reachable in the model.
* JavaScript timestamps (`Date.now()`) are naturals, passed explicitly as a
  `now` argument to each operation that reads the clock.
* JavaScript truthiness is modelled explicitly where the source branches on
  it: a missing field is `none`, the empty string and the number `0` are
  falsy, objects and non-empty arrays and any `Array.isArray` result are
  truthy.  In particular `cachedData.expiry && ...` in `get` is false both
  for a missing expiry and for an expiry equal to `0`.
* A `localStorage.setItem` call can throw (quota / permission); this is the
  only storage primitive the source guards with a fallback, and it is
  modelled by an explicit `setThrows` flag on `set`.  `Map.set`,
  `localStorage.getItem` and `localStorage.removeItem` do not throw.
-/

namespace FitApp

/-- The shape stored under every key: `{ data, timestamp, expiry? }`
(interface `CachedData` in `storageService.ts`). -/
structure CachedData (α : Type) where
  data : α
  timestamp : Nat
  expiry : Option Nat
deriving DecidableEq, Repr

/-- One underlying string-keyed store (either `localStorage` or the
in-memory `Map`), as an association list in insertion order. -/
abbrev Store (α : Type) := List (String × CachedData α)

/-- Look a key up in a store (first binding wins, as for a map). -/
def storeGet {α : Type} (s : Store α) (k : String) : Option (CachedData α) :=
  match s with
  | [] => none
  | (k', v) :: rest => if k' = k then some v else storeGet rest k

/-- Overwrite the binding for `k` (or append it), as `Map.set` /
`localStorage.setItem` do. -/
def storePut {α : Type} (s : Store α) (k : String) (v : CachedData α) : Store α :=
  match s with
  | [] => [(k, v)]
  | (k', v') :: rest => if k' = k then (k, v) :: rest else (k', v') :: storePut rest k v

/-- Delete the binding for `k`, as `Map.delete` / `localStorage.removeItem` do. -/
def storeErase {α : Type} (s : Store α) (k : String) : Store α :=
  match s with
  | [] => []
  | (k', v') :: rest => if k' = k then storeErase rest k else (k', v') :: storeErase rest k

/-- The whole mutable state of the `StorageService` singleton: the
availability flag set by `checkStorageAvailability`, the shared
`localStorage`, and the private `inMemoryStorage` map. -/
structure ServiceState (α : Type) where
  isStorageAvailable : Bool
  localStore : Store α
  memStore : Store α
deriving DecidableEq, Repr

/-- `private readonly PREFIX = 'fitness_app_'`. -/
def PREFIX : String := "fitness_app_"

/-- `private readonly SYNC_QUEUE_KEY = 'sync_queue'`. -/
def SYNC_QUEUE_KEY : String := "sync_queue"

/-- The store all reads and deletes go to: `localStorage` when available,
otherwise the in-memory map. -/
def activeStore {α : Type} (st : ServiceState α) : Store α :=
  if st.isStorageAvailable then st.localStore else st.memStore

/-- `const expiry = expiryHours ? Date.now() + (expiryHours * 60 * 60 * 1000)
: undefined;` — an absent or zero (falsy) `expiryHours` leaves the entry
without an expiry timestamp. -/
def expiryOf (expiryHours : Option Nat) (now : Nat) : Option Nat :=
  match expiryHours with
  | none => none
  | some h => if h = 0 then none else some (now + h * 3600000)

/-- `set(key, value, expiryHours?)` from `storageService.ts`.

`value` is `Option` because the source rejects `value === undefined`; `key`
is rejected when falsy (empty).  `expiryHours ? Date.now() + expiryHours *
60*60*1000 : undefined` makes an `expiryHours` of `0` (falsy) behave like an
absent one.  When `localStorage` is flagged available but `setItem` throws
(`setThrows`), the catch block falls back to the in-memory map and still
returns `true`; the in-memory `Map.set` itself cannot throw, so the
`fallbackError` branch of the source is dead here. -/
def set {α : Type} (st : ServiceState α) (key : String) (value : Option α)
    (expiryHours : Option Nat) (now : Nat) (setThrows : Bool) :
    Bool × ServiceState α :=
  match value with
  | none => (false, st)
  | some v =>
    if key = "" then (false, st)
    else
      let cd : CachedData α := ⟨v, now, expiryOf expiryHours now⟩
      if st.isStorageAvailable then
        if setThrows then
          (true, { st with memStore := storePut st.memStore (PREFIX ++ key) cd })
        else
          (true, { st with localStore := storePut st.localStore (PREFIX ++ key) cd })
      else
        (true, { st with memStore := storePut st.memStore (PREFIX ++ key) cd })

/-- `remove(key)` from `storageService.ts`: deletes from the active store,
returns `false` only for a falsy key. -/
def remove {α : Type} (st : ServiceState α) (key : String) : Bool × ServiceState α :=
  if key = "" then (false, st)
  else if st.isStorageAvailable then
    (true, { st with localStore := storeErase st.localStore (PREFIX ++ key) })
  else
    (true, { st with memStore := storeErase st.memStore (PREFIX ++ key) })

/-- `get(key)` from `storageService.ts`: read the active store; on a hit,
`if (cachedData.expiry && Date.now() > cachedData.expiry)` evicts the entry
through `remove` and returns `null`, otherwise the stored data is returned.
The JavaScript guard is falsy both for a missing `expiry` and for an
`expiry` equal to `0`. -/
def get {α : Type} (st : ServiceState α) (key : String) (now : Nat) :
    Option α × ServiceState α :=
  if key = "" then (none, st)
  else
    match storeGet (activeStore st) (PREFIX ++ key) with
    | none => (none, st)
    | some cd =>
      match cd.expiry with
      | none => (some cd.data, st)
      | some e =>
        if e ≠ 0 ∧ now > e then (none, (remove st key).2)
        else (some cd.data, st)

/-- `clear()` from `storageService.ts`: collect the keys of the active store
that start with `PREFIX` and remove each of them; the other store and all
non-prefixed keys are untouched, and the call returns `true`. -/
def clear {α : Type} (st : ServiceState α) : Bool × ServiceState α :=
  if st.isStorageAvailable then
    (true, { st with
      localStore := st.localStore.filter (fun kv => !(kv.1.startsWith PREFIX)) })
  else
    (true, { st with
      memStore := st.memStore.filter (fun kv => !(kv.1.startsWith PREFIX)) })

/-!
## Domain records and the sync queue

`UserProfile`, `ActivitySession` and weight payloads are opaque to the core;
the only fields the storage/sync layer ever inspects are `city` on a profile
(weather reload in `handleUserUpdate` / `loadUserData`) and, on a queued
payload, `userId`, `profile`, `weight` and `notes` (`executeSyncItem`).
Everything else is carried in an uninterpreted `rest` component.
-/

/-- A user profile: `city` as the one field the shell inspects, the rest of
the record opaque. -/
structure Profile where
  city : Option String
  rest : Nat
deriving DecidableEq, Repr

/-- The duck-typed `item.data : any` of a queued mutation, restricted to the
fields `executeSyncItem` inspects, plus an opaque remainder.  A field that is
absent on the JavaScript object is `none`. -/
structure SyncData where
  userId : Option String
  profile : Option Profile
  weight : Option Int
  notes : Option String
  rest : Nat
deriving DecidableEq, Repr

/-- `action: 'create' | 'update' | 'delete'`. -/
inductive Action where
  | create
  | update
  | delete
deriving DecidableEq, Repr

/-- Interface `SyncQueue` of `storageService.ts` (one queued item). -/
structure SyncItem where
  id : String
  action : Action
  collection : String
  data : SyncData
  timestamp : Nat
  retryCount : Nat
deriving DecidableEq, Repr

/-- A call received by the remote data service (`firestoreService`), used as
the observable remote-side event log. -/
inductive FsCall where
  | getProfile (uid : String)
  | getSessions (uid : String) (limit : Nat)
  | getWeights (uid : String) (limit : Nat)
  | getStats (uid : String)
  | saveProfile (uid : String) (p : Profile)
  | addSession (s : SyncData)
  | addWeight (uid : String) (w : Int) (notes : Option String)
deriving DecidableEq, Repr

/-- The behaviour of the remote service's write endpoints: `true` means the
returned promise resolves, `false` means it rejects. -/
abbrev RemoteBehavior := FsCall → Bool

/-- `private async executeSyncItem(item, firestoreService)` from
`storageService.ts`: dispatch on `item.collection`, and inside a known
collection on `item.action` and the truthiness of the payload fields the
guard reads (`''` and `0` are falsy).  A guard that does not match simply
`break`s — the promise resolves without any remote call.  Only an unknown
collection throws (`Unsupported collection`).  Returns the remote calls made
and whether the promise resolved.  The initial `!item || !firestoreService`
guard is outside the model: both arguments are always supplied here. -/
def executeSyncItem (item : SyncItem) (beh : RemoteBehavior) : List FsCall × Bool :=
  match item.collection with
  | "users" =>
    match item.action, item.data.userId, item.data.profile with
    | Action.update, some uid, some prof =>
      if uid = "" then ([], true)
      else
        let c := FsCall.saveProfile uid prof
        ([c], beh c)
    | _, _, _ => ([], true)
  | "sessions" =>
    match item.action, item.data.userId with
    | Action.create, some uid =>
      if uid = "" then ([], true)
      else
        let c := FsCall.addSession item.data
        ([c], beh c)
    | _, _ => ([], true)
  | "weights" =>
    match item.action, item.data.userId, item.data.weight with
    | Action.create, some uid, some w =>
      if uid = "" ∨ w = 0 then ([], true)
      else
        let c := FsCall.addWeight uid w item.data.notes
        ([c], beh c)
    | _, _, _ => ([], true)
  | _ => ([], false)

/-- The `for (const item of syncQueue)` loop body of `syncPendingData`:
count successes, on failure increment `retryCount` and keep the item only
while `retryCount < 3`.  Returns (synced count, surviving queue, remote
calls in order). -/
def processQueue (items : List SyncItem) (beh : RemoteBehavior) :
    Nat × List SyncItem × List FsCall :=
  match items with
  | [] => (0, [], [])
  | item :: rest =>
    let r := executeSyncItem item beh
    let t := processQueue rest beh
    if r.2 then
      (t.1 + 1, t.2.1, r.1 ++ t.2.2)
    else
      let bumped := { item with retryCount := item.retryCount + 1 }
      if bumped.retryCount < 3 then
        (t.1, bumped :: t.2.1, r.1 ++ t.2.2)
      else
        (t.1, t.2.1, r.1 ++ t.2.2)

/-- `async syncPendingData(firestoreService)` of `storageService.ts`, at the
level of the queue value persisted under `SYNC_QUEUE_KEY`: offline it
returns `0` before reading or writing anything; with an empty queue it
returns `0` before the final `set`; otherwise it processes the snapshot and
the surviving list replaces the queue.  Result: (returned count, queue value
after the call, remote calls made). -/
def syncPendingData (online : Bool) (queue : List SyncItem) (beh : RemoteBehavior) :
    Nat × List SyncItem × List FsCall :=
  if !online then (0, queue, [])
  else if queue = [] then (0, queue, [])
  else processQueue queue beh

/-- The remote write `executeSyncItem` dispatches for an item, if any: this
is the specification-side reading of the dispatch table — `some c` exactly
when the `(collection, action, payload)` guard matches and the remote is
invoked with `c`. -/
def dispatchCall (item : SyncItem) : Option FsCall :=
  match item.collection with
  | "users" =>
    match item.action, item.data.userId, item.data.profile with
    | Action.update, some uid, some prof =>
      if uid = "" then none else some (FsCall.saveProfile uid prof)
    | _, _, _ => none
  | "sessions" =>
    match item.action, item.data.userId with
    | Action.create, some uid =>
      if uid = "" then none else some (FsCall.addSession item.data)
    | _, _ => none
  | "weights" =>
    match item.action, item.data.userId, item.data.weight with
    | Action.create, some uid, some w =>
      if uid = "" ∨ w = 0 then none
      else some (FsCall.addWeight uid w item.data.notes)
    | _, _, _ => none
  | _ => none

/-- The collections `executeSyncItem` knows (its non-`default` cases). -/
def knownCollection (s : String) : Bool :=
  s == "users" || s == "sessions" || s == "weights"

/-- Characterization of `executeSyncItem`: when the dispatch table matches,
exactly that one remote call is made and the item succeeds iff the call
resolves; when it does not match, no call is made and the item succeeds iff
the collection is a known one (an unknown collection throws). -/
theorem executeSyncItem_eq (item : SyncItem) (beh : RemoteBehavior) :
    executeSyncItem item beh =
      (match dispatchCall item with
       | some c => ([c], beh c)
       | none => ([], knownCollection item.collection)) := by
  obtain ⟨id, act, coll, data, ts, rc⟩ := item
  obtain ⟨uidO, profO, wO, nO, r⟩ := data
  by_cases hu : coll = "users"
  · subst hu
    cases act <;> cases uidO <;> cases profO <;>
      simp [executeSyncItem, dispatchCall, knownCollection] <;>
      split <;> simp_all
  · by_cases hs : coll = "sessions"
    · subst hs
      cases act <;> cases uidO <;>
        simp [executeSyncItem, dispatchCall, knownCollection] <;>
        split <;> simp_all
    · by_cases hw : coll = "weights"
      · subst hw
        cases act <;> cases uidO <;> cases wO <;>
          simp [executeSyncItem, dispatchCall, knownCollection] <;>
          split <;> simp_all
      · simp [executeSyncItem, dispatchCall, knownCollection, hu, hs, hw]

/-- An update of `retryCount` does not change what the dispatch table sees. -/
theorem dispatchCall_retryCount (item : SyncItem) (n : Nat) :
    dispatchCall { item with retryCount := n } = dispatchCall item := by
  cases item; rfl

/-- One online drain pass over a single item whose dispatch call always
fails: the retry count is bumped by one and the item survives exactly while
the bumped count is below 3, with one remote attempt made. -/
theorem drain_single_fail (j : SyncItem) (cj : FsCall) (beh : RemoteBehavior)
    (hd : dispatchCall j = some cj) (hb : ∀ x, beh x = false) :
    syncPendingData true [j] beh =
      (0, if j.retryCount + 1 < 3 then [{ j with retryCount := j.retryCount + 1 }] else [],
        [cj]) := by
  have he := executeSyncItem_eq j beh
  rw [hd] at he
  simp only [syncPendingData, processQueue, he, hb cj]
  by_cases hlt : j.retryCount + 1 < 3 <;> simp [hlt]

/-- A remote service whose writes always fail. -/
def behFail : RemoteBehavior := fun _ => false

/-- A remote service whose writes always succeed. -/
def behTrue : RemoteBehavior := fun _ => true

/-- The bounded-retry behaviour claimed for every queue item under an
always-failing remote: three successive online drains of a queue holding the
single item bump its `retryCount` from 0 to 1 to 2, keeping it, each pass
making exactly one remote attempt, and the third pass drops it leaving the
queue empty. -/
def c1ClaimProperty (item : SyncItem) (beh : RemoteBehavior) : Prop :=
  let d1 := syncPendingData true [item] beh
  let d2 := syncPendingData true d1.2.1 beh
  let d3 := syncPendingData true d2.2.1 beh
  d1.2.1 = [{ item with retryCount := 1 }] ∧ d1.2.2.length = 1 ∧
  d2.2.1 = [{ item with retryCount := 2 }] ∧ d2.2.2.length = 1 ∧
  d3.2.1 = [] ∧ d3.2.2.length = 1

/-- A queue item the shell actually enqueues (`handleRegister` while
offline): collection `users` with action `create` and a full payload. -/
def itemA : SyncItem :=
  ⟨"a", Action.create, "users", ⟨some "u", some ⟨some "Paris", 0⟩, none, none, 0⟩, 0, 0⟩

/-- A queue item that dispatches a remote write: `(users, update)` with a
truthy `userId` and `profile`. -/
def itemB : SyncItem :=
  ⟨"b", Action.update, "users", ⟨some "u", some ⟨some "Paris", 0⟩, none, none, 0⟩, 0, 0⟩

/-- The remote write `itemB` dispatches. -/
def callB : FsCall := FsCall.saveProfile "u" ⟨some "Paris", 0⟩

/-- C1 (counterexample): the bounded-retry behaviour does not hold for every
sync-queue item under an always-failing remote.  The `(users, create)` item
`itemA` — the very shape `handleRegister` enqueues offline — slips past the
dispatch guard of `executeSyncItem`, resolves without any remote call, and
is dropped as a *success* on the first drain: its retry count is never
incremented and the remote is invoked zero times, not three. -/
theorem c1_counterexample :
    itemA.retryCount = 0 ∧ (∀ c, behFail c = false) ∧
    syncPendingData true [itemA] behFail = (1, [], []) ∧
    ¬ c1ClaimProperty itemA behFail := by
  refine ⟨rfl, fun _ => rfl, by decide, ?_⟩
  unfold c1ClaimProperty
  decide

/-- C1 (amended): bounded retry holds for every item that *dispatches* a
remote write.  Under an always-failing remote, each online drain pass makes
exactly one remote attempt and bumps `retryCount` by one, the item is kept
after the pass iff the bumped count is below 3, and an item enqueued with
`retryCount = 0` is attempted exactly 3 times over three drains and then
dropped, leaving the queue empty. -/
theorem bounded_retry_of_dispatching_item (item : SyncItem) (c : FsCall)
    (beh : RemoteBehavior) (hd : dispatchCall item = some c)
    (hb : ∀ x, beh x = false) (h0 : item.retryCount = 0) :
    syncPendingData true [item] beh = (0, [{ item with retryCount := 1 }], [c]) ∧
    syncPendingData true [{ item with retryCount := 1 }] beh =
      (0, [{ item with retryCount := 2 }], [c]) ∧
    syncPendingData true [{ item with retryCount := 2 }] beh = (0, [], [c]) ∧
    (∀ (j : SyncItem) (cj : FsCall), dispatchCall j = some cj →
      syncPendingData true [j] beh =
        (0, if j.retryCount + 1 < 3 then [{ j with retryCount := j.retryCount + 1 }] else [],
          [cj])) := by
  have h1 := drain_single_fail item c beh hd hb
  have h2 := drain_single_fail { item with retryCount := 1 } c beh
    (by rw [dispatchCall_retryCount]; exact hd) hb
  have h3 := drain_single_fail { item with retryCount := 2 } c beh
    (by rw [dispatchCall_retryCount]; exact hd) hb
  rw [h0] at h1
  refine ⟨by simpa using h1, by simpa using h2, by simpa using h3,
    fun j cj hj => drain_single_fail j cj beh hj hb⟩

/-- Witness for the amended C1 at the concrete item `itemB`. -/
theorem bounded_retry_witness :
    syncPendingData true [itemB] behFail =
      (0, [{ itemB with retryCount := 1 }], [callB]) :=
  (bounded_retry_of_dispatching_item itemB callB behFail rfl (fun _ => rfl) rfl).1

/-- The dispatch-correctness behaviour claimed for a queue item: it resolves
as a success only if at least one remote write was actually received, and an
item whose collection is not `users`/`sessions`/`weights` fails rather than
succeeds. -/
def c2ClaimProperty (item : SyncItem) (beh : RemoteBehavior) : Prop :=
  ((executeSyncItem item beh).2 = true → (executeSyncItem item beh).1 ≠ []) ∧
  (knownCollection item.collection = false → (executeSyncItem item beh).2 = false)

/-- C2 (counterexample): `itemA` — collection `users` with action `create` —
is counted as a successfully applied item by `drain` (the returned count is
1 and the item is removed from the queue) although the remote service
received no call at all. -/
theorem c2_counterexample :
    (executeSyncItem itemA behTrue).2 = true ∧
    (executeSyncItem itemA behTrue).1 = [] ∧
    syncPendingData true [itemA] behTrue = (1, [], []) ∧
    ¬ c2ClaimProperty itemA behTrue := by
  refine ⟨rfl, rfl, by decide, ?_⟩
  unfold c2ClaimProperty
  decide

/-- The drain pass counts exactly the items whose `executeSyncItem` promise
resolved. -/
theorem processQueue_count (q : List SyncItem) (beh : RemoteBehavior) :
    (processQueue q beh).1 = q.countP (fun i => (executeSyncItem i beh).2) := by
  induction q with
  | nil => rfl
  | cons item rest ih =>
    by_cases h : (executeSyncItem item beh).2 <;>
      simp [processQueue, h, List.countP_cons, ih] <;> split <;> simp

/-- C2 (amended): an item is counted as a success exactly when either its
`(collection, action, payload)` triple matches the dispatch table — in which
case the remote receives exactly the appropriate write and the item succeeds
iff that write resolves — or the triple fails the guard inside a *known*
collection, in which case the item is silently counted as a success with no
remote call; only an unknown collection raises a failure.  The count `drain`
returns is the number of items whose promise resolved. -/
theorem drain_dispatch_characterization :
    (∀ (item : SyncItem) (beh : RemoteBehavior),
      executeSyncItem item beh =
        (match dispatchCall item with
         | some c => ([c], beh c)
         | none => ([], knownCollection item.collection))) ∧
    (∀ (q : List SyncItem) (beh : RemoteBehavior),
      (syncPendingData true q beh).1 = q.countP (fun i => (executeSyncItem i beh).2)) := by
  refine ⟨executeSyncItem_eq, fun q beh => ?_⟩
  cases q with
  | nil => rfl
  | cons item rest => simpa [syncPendingData] using processQueue_count (item :: rest) beh

/-- C7: calling `drain` while offline returns 0, makes no remote call and
leaves the queue untouched — the `!this.isOnline()` guard returns before any
read or write of the store. -/
theorem offline_drain_noop (q : List SyncItem) (beh : RemoteBehavior) :
    syncPendingData false q beh = (0, q, []) := rfl

/-!
## Overlapping drain invocations

`syncPendingData` is an `async` function: the only suspension points are its
`await`s on the remote write inside the loop.  Everything between two
suspension points runs atomically on the single JavaScript thread.  A second
invocation (e.g. from a connectivity event) can therefore start — and read
the same persisted queue — while the first is suspended on a remote call,
because the surviving queue is only written back after the loop.  The step
system below makes those atomic segments explicit: starting a drain (online
check + queue snapshot), processing one item (one remote round-trip), and
finishing (write-back of the surviving list and return).
-/

/-- The private state of one in-flight `syncPendingData` invocation, between
suspension points. -/
inductive DrainThread where
  | idle
  | running (remaining : List SyncItem) (synced : Nat) (kept : List SyncItem)
  | finished (count : Nat)
deriving DecidableEq, Repr

/-- Two invocations sharing the persisted queue and the remote service. -/
structure SyncConfig where
  online : Bool
  queue : List SyncItem
  calls : List FsCall
  t1 : DrainThread
  t2 : DrainThread
deriving DecidableEq, Repr

/-- One atomic segment of one invocation: start (guards + snapshot), one
loop iteration (remote call and bookkeeping), or the final write-back. -/
def drainStep (beh : RemoteBehavior) (t : DrainThread) (online : Bool)
    (queue : List SyncItem) (calls : List FsCall) :
    DrainThread × List SyncItem × List FsCall :=
  match t with
  | .idle =>
    if !online then (.finished 0, queue, calls)
    else if queue = [] then (.finished 0, queue, calls)
    else (.running queue 0 [], queue, calls)
  | .running [] n kept => (.finished n, kept, calls)
  | .finished n => (.finished n, queue, calls)
  | .running (item :: rest) n kept =>
    let r := executeSyncItem item beh
    if r.2 then (.running rest (n + 1) kept, queue, calls ++ r.1)
    else
      let bumped := { item with retryCount := item.retryCount + 1 }
      if bumped.retryCount < 3 then
        (.running rest n (kept ++ [bumped]), queue, calls ++ r.1)
      else (.running rest n kept, queue, calls ++ r.1)

/-- Advance the chosen invocation by one atomic segment. -/
def step (beh : RemoteBehavior) (cfg : SyncConfig) (first : Bool) : SyncConfig :=
  if first then
    let r := drainStep beh cfg.t1 cfg.online cfg.queue cfg.calls
    { cfg with t1 := r.1, queue := r.2.1, calls := r.2.2 }
  else
    let r := drainStep beh cfg.t2 cfg.online cfg.queue cfg.calls
    { cfg with t2 := r.1, queue := r.2.1, calls := r.2.2 }

/-- Run a schedule (`true` = first invocation moves, `false` = second). -/
def runSched (beh : RemoteBehavior) (cfg : SyncConfig) (sched : List Bool) : SyncConfig :=
  sched.foldl (step beh) cfg

/-- C9: the code has no reentrancy guard, so a second `drain` started while
the first is awaiting its remote call reads the same queue snapshot and
applies the same item again.  With one `(users, update)` item queued and a
remote that resolves, the interleaving "both start, both process the item,
both write back" delivers `saveUserProfile` to the remote twice — the item
is double-applied — and both invocations return 1. -/
theorem overlapping_drain_double_apply :
    runSched behTrue ⟨true, [itemB], [], .idle, .idle⟩
        [true, false, true, false, true, false] =
      ⟨true, [], [callB, callB], .finished 1, .finished 1⟩ := by
  decide

/-!
## Elementary store and key lemmas
-/

theorem storeGet_put_same {α : Type} (s : Store α) (k : String) (v : CachedData α) :
    storeGet (storePut s k v) k = some v := by
  induction s with
  | nil => simp [storePut, storeGet]
  | cons kv rest ih =>
    by_cases h : kv.1 = k <;> simp [storePut, storeGet, h, ih]

theorem storeGet_put_other {α : Type} (s : Store α) (k k' : String) (v : CachedData α)
    (h : k' ≠ k) : storeGet (storePut s k' v) k = storeGet s k := by
  induction s with
  | nil => simp [storePut, storeGet, h]
  | cons kv rest ih =>
    by_cases hk : kv.1 = k' <;> by_cases hk2 : kv.1 = k <;>
      simp_all [storePut, storeGet]

theorem storeGet_erase_same {α : Type} (s : Store α) (k : String) :
    storeGet (storeErase s k) k = none := by
  induction s with
  | nil => simp [storeErase, storeGet]
  | cons kv rest ih =>
    by_cases h : kv.1 = k <;> simp_all [storeErase, storeGet]

theorem storeGet_erase_other {α : Type} (s : Store α) (k k' : String)
    (h : k' ≠ k) : storeGet (storeErase s k') k = storeGet s k := by
  induction s with
  | nil => simp [storeErase]
  | cons kv rest ih =>
    by_cases hk : kv.1 = k' <;> by_cases hk2 : kv.1 = k <;>
      simp_all [storeErase, storeGet]

theorem storeGet_filter {α : Type} (s : Store α) (p : String → Bool) (key : String) :
    storeGet (s.filter (fun kv => p kv.1)) key =
      if p key then storeGet s key else none := by
  induction s with
  | nil => simp [storeGet]
  | cons kv rest ih =>
    by_cases hk : kv.1 = key
    · subst hk
      by_cases hp : p kv.1 <;> simp [storeGet, hp, ih]
    · by_cases hp : p kv.1 <;> simp [storeGet, hp, ih, hk]

theorem string_data_append (s t : String) : (s ++ t).data = s.data ++ t.data := rfl

theorem string_append_right_inj (p : String) {a b : String} (h : a ≠ b) :
    p ++ a ≠ p ++ b := by
  intro he
  apply h
  obtain ⟨da⟩ := a
  obtain ⟨db⟩ := b
  have h2 := congrArg String.data he
  rw [string_data_append, string_data_append] at h2
  exact congrArg String.mk (List.append_cancel_left h2)

theorem append_data_head (a u : String) (x : Char) (hx : a.data.head? = some x) :
    (a ++ u).data.head? = some x := by
  cases ha : a.data with
  | nil => rw [ha] at hx; cases hx
  | cons c cs =>
    rw [ha] at hx
    rw [string_data_append, ha]
    simpa using hx

theorem ne_of_data_head {s t : String} {x y : Char}
    (hx : s.data.head? = some x) (hy : t.data.head? = some y) (hxy : x ≠ y) :
    s ≠ t := by
  intro he
  subst he
  rw [hx] at hy
  exact hxy (Option.some.inj hy)

/-!
## Service-level read/write lemmas

`get`'s returned value depends only on the active store's binding at the
prefixed key; `set` (with a healthy persistent write) overwrites exactly
that binding; `get`'s eviction side effect touches only its own key.
-/

theorem get_fst_eq {α : Type} (st1 st0 : ServiceState α) (k : String) (now : Nat)
    (h : storeGet (activeStore st1) (PREFIX ++ k) = storeGet (activeStore st0) (PREFIX ++ k)) :
    (get st1 k now).1 = (get st0 k now).1 := by
  by_cases hk : k = ""
  · simp [get, hk]
  · simp only [get, hk, if_false, h]
    rcases storeGet (activeStore st0) (PREFIX ++ k) with _ | cd
    · rfl
    · obtain ⟨d, ts, ex⟩ := cd
      rcases ex with _ | e
      · rfl
      · by_cases he : e ≠ 0 ∧ now > e <;> simp [he]

theorem activeStore_set {α : Type} (st : ServiceState α) (k : String) (v : α)
    (hOpt : Option Nat) (now : Nat) (hk : k ≠ "") :
    activeStore ((set st k (some v) hOpt now false).2) =
      storePut (activeStore st) (PREFIX ++ k) ⟨v, now, expiryOf hOpt now⟩ := by
  obtain ⟨avail, ls, ms⟩ := st
  cases avail <;> simp [set, activeStore, hk]

theorem storeGet_activeStore_get_other {α : Type} (st : ServiceState α)
    (k key : String) (now : Nat) (hne : key ≠ PREFIX ++ k) :
    storeGet (activeStore ((get st k now).2)) key = storeGet (activeStore st) key := by
  by_cases hk : k = ""
  · simp [get, hk]
  · simp only [get, hk, if_false]
    rcases hl : storeGet (activeStore st) (PREFIX ++ k) with _ | cd
    · rfl
    · obtain ⟨d, ts, ex⟩ := cd
      rcases ex with _ | e
      · rfl
      · change storeGet (activeStore
            (if e ≠ 0 ∧ now > e then (none, (remove st k).2)
             else (some d, st)).2) key = storeGet (activeStore st) key
        split
        · obtain ⟨avail, ls, ms⟩ := st
          cases avail <;>
            simp [remove, activeStore, hk, storeGet_erase_other _ _ _ (Ne.symm hne)]
        · rfl

theorem get_set_same {α : Type} (st : ServiceState α) (k : String) (v : α)
    (hOpt : Option Nat) (now : Nat) (hk : k ≠ "") :
    (get ((set st k (some v) hOpt now false).2) k now).1 = some v := by
  have ha := activeStore_set st k v hOpt now hk
  simp only [get, hk, if_false, ha, storeGet_put_same]
  rcases hOpt with _ | h
  · simp [expiryOf]
  · by_cases h0 : h = 0
    · simp [expiryOf, h0]
    · simp only [expiryOf, h0, if_false]
      have : ¬ (now + h * 3600000 ≠ 0 ∧ now > now + h * 3600000) := by omega
      simp [this]

theorem get_set_same_noTtl {α : Type} (st : ServiceState α) (k : String) (v : α)
    (now now' : Nat) (hk : k ≠ "") :
    (get ((set st k (some v) none now false).2) k now').1 = some v := by
  have ha := activeStore_set st k v none now hk
  simp [get, hk, ha, storeGet_put_same, expiryOf]

theorem get_fst_set_other {α : Type} (st : ServiceState α) (k k' : String)
    (v : Option α) (hOpt : Option Nat) (now now' : Nat) (hne : k ≠ k') :
    (get ((set st k' v hOpt now false).2) k now').1 = (get st k now').1 := by
  rcases v with _ | v
  · rfl
  · by_cases hk' : k' = ""
    · simp [set, hk']
    · apply get_fst_eq
      rw [activeStore_set st k' v hOpt now hk']
      exact storeGet_put_other _ _ _ _
        (string_append_right_inj PREFIX (fun h => hne h.symm))

theorem get_fst_get_other {α : Type} (st : ServiceState α) (k k' : String)
    (now now' : Nat) (hne : k ≠ k') :
    (get ((get st k' now').2) k now).1 = (get st k now).1 :=
  get_fst_eq _ _ _ _
    (storeGet_activeStore_get_other st k' (PREFIX ++ k) now'
      (string_append_right_inj PREFIX hne))

/-- Every expiry timestamp `set` ever writes is positive: it is
`now + h * 3600000` with `h ≥ 1`, so the `expiry && ...` truthiness guard in
`get` can only mask an expiry for entries the service itself never
produces. -/
theorem set_writes_positive_expiry (hOpt : Option Nat) (now : Nat) :
    ∀ e, expiryOf hOpt now = some e → 0 < e := by
  intro e he
  rcases hOpt with _ | h
  · simp [expiryOf] at he
  · by_cases h0 : h = 0
    · simp [expiryOf, h0] at he
    · simp only [expiryOf, h0, if_false, Option.some.injEq] at he
      omega

/-- C3: `get` never returns a value from an entry whose (positive) expiry
timestamp lies strictly before the current time — such a `get` evicts the
entry from the active store and returns `none`; an entry without an expiry
timestamp is returned unchanged no matter the current time; and a value
stored by `set` without a TTL is returned by `get` at every later time.
The positivity hypothesis on the stored timestamp is justified by
`set_writes_positive_expiry`. -/
theorem cache_expiry_invariant {α : Type} (st : ServiceState α) (k : String)
    (now : Nat) (cd : CachedData α) (hk : k ≠ "")
    (hlook : storeGet (activeStore st) (PREFIX ++ k) = some cd) :
    (∀ e, cd.expiry = some e → 0 < e → e < now →
      (get st k now).1 = none ∧
      storeGet (activeStore ((get st k now).2)) (PREFIX ++ k) = none) ∧
    (cd.expiry = none → get st k now = (some cd.data, st)) ∧
    (∀ (v : α) (now₀ now₁ : Nat),
      (get ((set st k (some v) none now₀ false).2) k now₁).1 = some v) := by
  refine ⟨?_, ?_, fun v now₀ now₁ => get_set_same_noTtl st k v now₀ now₁ hk⟩
  · intro e he h0 hnow
    have hcond : e ≠ 0 ∧ now > e := ⟨by omega, hnow⟩
    constructor
    · simp [get, hk, hlook, he, hcond]
    · simp only [get, hk, if_false, hlook, he, hcond, and_self, ne_eq, if_true]
      obtain ⟨avail, ls, ms⟩ := st
      cases avail <;> simp [remove, activeStore, hk, storeGet_erase_same]
  · intro he
    simp [get, hk, hlook, he]

/-- Witness for C3 at a concrete store: an entry under `fitness_app_k` that
expired at time 10 is neither returned nor kept by a `get` at time 11. -/
theorem cache_expiry_invariant_witness :
    (get (⟨true, [("fitness_app_k", ⟨(5 : Nat), 0, some 10⟩)], []⟩ : ServiceState Nat)
        "k" 11).1 = none ∧
    storeGet (activeStore ((get
        (⟨true, [("fitness_app_k", ⟨(5 : Nat), 0, some 10⟩)], []⟩ : ServiceState Nat)
        "k" 11).2)) (PREFIX ++ "k") = none :=
  (cache_expiry_invariant
      (⟨true, [("fitness_app_k", ⟨(5 : Nat), 0, some 10⟩)], []⟩ : ServiceState Nat)
      "k" 11 ⟨5, 0, some 10⟩ (by decide) (by decide)).1 10 rfl (by decide) (by decide)

/-- C8: `clear` returns `true`, removes from the underlying store in use
exactly the entries whose keys start with the application prefix — a key
without the prefix (e.g. set by unrelated code sharing `localStorage`) still
looks up to its old value — and leaves the other store and the availability
flag unchanged. -/
theorem clear_namespace_isolation {α : Type} (st : ServiceState α) (key : String) :
    (clear st).1 = true ∧
    storeGet (activeStore (clear st).2) key =
      (if key.startsWith PREFIX then none else storeGet (activeStore st) key) ∧
    (clear st).2.isStorageAvailable = st.isStorageAvailable ∧
    (if st.isStorageAvailable then (clear st).2.memStore = st.memStore
     else (clear st).2.localStore = st.localStore) := by
  obtain ⟨avail, ls, ms⟩ := st
  cases avail
  · refine ⟨rfl, ?_, rfl, rfl⟩
    show storeGet (List.filter (fun kv => !(kv.1.startsWith PREFIX)) ms) key =
      if key.startsWith PREFIX then none else storeGet ms key
    rw [storeGet_filter ms (fun s => !(s.startsWith PREFIX)) key]
    cases h : key.startsWith PREFIX <;> simp [h]
  · refine ⟨rfl, ?_, rfl, rfl⟩
    show storeGet (List.filter (fun kv => !(kv.1.startsWith PREFIX)) ls) key =
      if key.startsWith PREFIX then none else storeGet ls key
    rw [storeGet_filter ls (fun s => !(s.startsWith PREFIX)) key]
    cases h : key.startsWith PREFIX <;> simp [h]

/-- C10 (counterexample): with `localStorage` flagged available but its
`setItem` throwing (quota), `set` falls back to the in-memory map and
reports success, yet the immediately following `get` still reads
`localStorage`, misses, and returns `null` instead of the stored value. -/
theorem set_fallback_roundtrip_counterexample :
    (set (⟨true, [], []⟩ : ServiceState Nat) "k" (some 7) none 0 true).1 = true ∧
    (get ((set (⟨true, [], []⟩ : ServiceState Nat) "k" (some 7) none 0 true).2)
        "k" 0).1 = none := by
  decide

/-- C10 (amended): the set/get round-trip does hold whenever the write lands
in the store `get` reads — that is, when persistent storage is flagged
unavailable (both operations use the in-memory map) or when the persistent
write does not throw.  On the remaining path (storage flagged available but
`setItem` throwing) `set` returns `true` while `get` misses, as the
counterexample shows. -/
theorem set_get_roundtrip {α : Type} (st : ServiceState α) (k : String) (v : α)
    (now now' : Nat) (setThrows : Bool) (hk : k ≠ "")
    (hpath : st.isStorageAvailable = false ∨ setThrows = false) :
    (set st k (some v) none now setThrows).1 = true ∧
    (get ((set st k (some v) none now setThrows).2) k now').1 = some v := by
  constructor
  · obtain ⟨avail, ls, ms⟩ := st
    cases avail <;> cases setThrows <;> simp_all [set, hk]
  · rcases hpath with h | h
    · obtain ⟨avail, ls, ms⟩ := st
      simp only at h
      subst h
      simp [set, get, hk, activeStore, storeGet_put_same, expiryOf]
    · subst h
      exact get_set_same_noTtl _ _ _ _ _ hk

/-- Witness for the amended C10 on the in-memory path, read far later. -/
theorem set_get_roundtrip_witness :
    (set (⟨false, [], []⟩ : ServiceState Nat) "k" (some 3) none 0 true).1 = true ∧
    (get ((set (⟨false, [], []⟩ : ServiceState Nat) "k" (some 3) none 0 true).2)
        "k" 99).1 = some 3 :=
  set_get_roundtrip (⟨false, [], []⟩ : ServiceState Nat) "k" 3 0 99 true
    (by decide) (Or.inl rfl)

/-!
## The application shell (`App.tsx`): data orchestration

The shell's state (`useState` hooks) and its load/save routines, restricted
to the resources the storage core transports: the UI `user`, `sessions`,
`stats`, `weightHistory` and `weather` state, and the `storageService`
singleton.  The values held by the cache are modelled by one sum type
`CVal`; the typed getters return `none` on a constructor mismatch, which
mirrors the source's `Array.isArray` check for sessions and is unreachable
for keys only ever written by the service's own typed writers. -/
inductive CVal where
  | profile (p : Profile)
  | sessions (ss : List SyncData)
  | stats (n : Nat)
  | weather (w : Nat)
  | queue (q : List SyncItem)
deriving DecidableEq, Repr

/-- The shell component's in-memory React state plus the storage service. -/
structure OrchState where
  user : Option Profile
  sessions : List SyncData
  stats : Option Nat
  weightHistory : List Nat
  weather : Option Nat
  svc : ServiceState CVal
deriving DecidableEq, Repr

/-- `cacheUserProfile(userId, profile)`: guard on a falsy `userId` (a profile
object is always truthy), then `set` under `user_profile_<userId>` with a
48-hour TTL. -/
def cacheUserProfile (uid : String) (p : Profile) (svc : ServiceState CVal)
    (now : Nat) : ServiceState CVal :=
  if uid = "" then svc
  else (set svc ("user_profile_" ++ uid) (some (CVal.profile p)) (some 48) now false).2

/-- `getCachedUserProfile(userId)`. -/
def getCachedUserProfile (uid : String) (svc : ServiceState CVal) (now : Nat) :
    Option Profile × ServiceState CVal :=
  if uid = "" then (none, svc)
  else
    let r := get svc ("user_profile_" ++ uid) now
    (match r.1 with
     | some (CVal.profile p) => some p
     | _ => none, r.2)

/-- `cacheSessions(userId, sessions)`: 24-hour TTL under `sessions_<userId>`
(a list is always an array, so only the `userId` guard can fire). -/
def cacheSessions (uid : String) (ss : List SyncData) (svc : ServiceState CVal)
    (now : Nat) : ServiceState CVal :=
  if uid = "" then svc
  else (set svc ("sessions_" ++ uid) (some (CVal.sessions ss)) (some 24) now false).2

/-- `getCachedSessions(userId)`: `Array.isArray(sessions) ? sessions : null`. -/
def getCachedSessions (uid : String) (svc : ServiceState CVal) (now : Nat) :
    Option (List SyncData) × ServiceState CVal :=
  if uid = "" then (none, svc)
  else
    let r := get svc ("sessions_" ++ uid) now
    (match r.1 with
     | some (CVal.sessions ss) => some ss
     | _ => none, r.2)

/-- `cacheStats(userId, stats)`: 12-hour TTL under `stats_<userId>` (a stats
object is truthy). -/
def cacheStats (uid : String) (n : Nat) (svc : ServiceState CVal) (now : Nat) :
    ServiceState CVal :=
  if uid = "" then svc
  else (set svc ("stats_" ++ uid) (some (CVal.stats n)) (some 12) now false).2

/-- `getCachedStats(userId)`. -/
def getCachedStats (uid : String) (svc : ServiceState CVal) (now : Nat) :
    Option Nat × ServiceState CVal :=
  if uid = "" then (none, svc)
  else
    let r := get svc ("stats_" ++ uid) now
    (match r.1 with
     | some (CVal.stats n) => some n
     | _ => none, r.2)

/-- `cacheWeatherData(city, weather)`: 1-hour TTL under
`weather_<city.toLowerCase()>`. -/
def cacheWeatherData (city : String) (w : Nat) (svc : ServiceState CVal)
    (now : Nat) : ServiceState CVal :=
  if city = "" then svc
  else (set svc ("weather_" ++ city.toLower) (some (CVal.weather w)) (some 1) now false).2

/-- `getCachedWeatherData(city)`. -/
def getCachedWeatherData (city : String) (svc : ServiceState CVal) (now : Nat) :
    Option Nat × ServiceState CVal :=
  if city = "" then (none, svc)
  else
    let r := get svc ("weather_" ++ city.toLower) now
    (match r.1 with
     | some (CVal.weather w) => some w
     | _ => none, r.2)

/-- `getSyncQueue()`: `Array.isArray(queue) ? queue : []`. -/
def getSyncQueue (svc : ServiceState CVal) (now : Nat) :
    List SyncItem × ServiceState CVal :=
  let r := get svc SYNC_QUEUE_KEY now
  (match r.1 with
   | some (CVal.queue q) => q
   | _ => [], r.2)

/-- `addToSyncQueue(action, collection, data)`: read the queue, push a fresh
item with `retryCount = 0`, persist the whole list (no TTL).  The `action`
literals and the `data` object are always truthy, so of the source's guard
only a falsy `collection` can fire.  The generated id
(`Date.now().toString() + Math.random().toString(36)`) is modelled by the
timestamp alone — nothing ever inspects it. -/
def addToSyncQueue (act : Action) (coll : String) (data : SyncData)
    (svc : ServiceState CVal) (now : Nat) : ServiceState CVal :=
  if coll = "" then svc
  else
    let r := getSyncQueue svc now
    let item : SyncItem := ⟨toString now, act, coll, data, now, 0⟩
    (set r.2 SYNC_QUEUE_KEY (some (CVal.queue (r.1 ++ [item]))) none now false).2

/-- One remote read round of `loadUserData`: whether each `firestoreService`
read endpoint throws internally, and what it would return on success.  The
source's endpoints swallow their own errors: `getUserProfile` and
`getUserStats` return `null` on failure, `getUserSessions` and
`getWeightHistory` return `[]` — a rejected promise never escapes them. -/
structure RemoteReads where
  profileFails : Bool
  profileVal : Option Profile
  sessionsFails : Bool
  sessionsVal : List SyncData
  weightsFails : Bool
  weightsVal : List Nat
  statsFails : Bool
  statsVal : Option Nat
deriving DecidableEq, Repr

/-- `firestoreService.getUserProfile`: `null` on failure. -/
def fsGetUserProfile (r : RemoteReads) : Option Profile :=
  if r.profileFails then none else r.profileVal

/-- `firestoreService.getUserSessions`: `[]` on failure. -/
def fsGetUserSessions (r : RemoteReads) : List SyncData :=
  if r.sessionsFails then [] else r.sessionsVal

/-- `firestoreService.getWeightHistory`: `[]` on failure. -/
def fsGetWeightHistory (r : RemoteReads) : List Nat :=
  if r.weightsFails then [] else r.weightsVal

/-- `firestoreService.getUserStats`: `null` on failure. -/
def fsGetUserStats (r : RemoteReads) : Option Nat :=
  if r.statsFails then none else r.statsVal

/-- JavaScript `a || b` where `a` is an object-or-null: any object is
truthy, `null`/`undefined` fall through to `b`. -/
def jsOrOpt {β : Type} (a b : Option β) : Option β :=
  match a with
  | some x => some x
  | none => b

/-- Truthiness of an optional string field (absent and `''` are falsy). -/
def truthyOptStr : Option String → Bool :=
  fun s => match s with
  | none => false
  | some s => !(s == "")

/-- The four remote reads `loadUserData` issues in its `Promise.all`. -/
def fsReadCalls (uid : String) : List FsCall :=
  [FsCall.getProfile uid, FsCall.getSessions uid 20,
    FsCall.getWeights uid 10, FsCall.getStats uid]

/-- The default profile `loadUserData` creates when neither cache nor remote
has one (city `'Paris'`, all other fields opaque). -/
def defaultProfile : Profile := ⟨some "Paris", 0⟩

/-- Environment of one `loadUserData` call: the remote reads, whether the
default-profile `saveUserProfile` resolves, and the weather fetch result
(`none` = the weather promise rejects). -/
structure LoadEnv where
  reads : RemoteReads
  saveOk : Bool
  weatherRes : Option Nat
deriving DecidableEq, Repr

/-- `if (cachedWeather) setWeather(cachedWeather)`: publish a cached weather
value into the UI state when one exists. -/
def applyCachedWeather (o : Option Nat) (st : OrchState) : OrchState :=
  match o with
  | some w => { st with weather := some w }
  | none => st

/-- Tail of `loadUserData` after `userData` is settled: `setUser`,
`setSessions(userSessions || [])`, `setStats`, then the weather block —
cached weather first, and when online a fetch whose success overwrites both
the UI weather and the weather cache and whose failure is caught and only
logged.  Third component: `false` would mean the call rethrew (it never does
from here). -/
def loadFinish (isOnline : Bool) (weatherRes : Option Nat) (p : Profile)
    (sessions : List SyncData) (stats : Option Nat) (calls : List FsCall)
    (now : Nat) (st : OrchState) : OrchState × List FsCall × Bool :=
  let st := { st with user := some p, sessions := sessions, stats := stats }
  let city :=
    match p.city with
    | some c => if c = "" then "Paris" else c
    | none => "Paris"
  let r := getCachedWeatherData city st.svc now
  let st := applyCachedWeather r.1 { st with svc := r.2 }
  if isOnline then
    match weatherRes with
    | some w =>
      ({ st with weather := some w, svc := cacheWeatherData city w st.svc now },
        calls, true)
    | none => (st, calls, true)
  else (st, calls, true)

/-- The `catch` block of `loadUserData`: restore whatever the cache holds
into the UI state, then rethrow (third component `false`). -/
def loadCatch (uid : String) (calls : List FsCall) (now : Nat) (st : OrchState) :
    OrchState × List FsCall × Bool :=
  let rp := getCachedUserProfile uid st.svc now
  let rs := getCachedSessions uid rp.2 now
  let rst := getCachedStats uid rs.2 now
  let st := { st with svc := rst.2 }
  let st := match rp.1 with | some p => { st with user := some p } | none => st
  let st := match rs.1 with | some ss => { st with sessions := ss } | none => st
  let st := match rst.1 with | some n => { st with stats := some n } | none => st
  (st, calls, false)

/-- `loadUserData(userId)` from `App.tsx`: read the three cached resources;
when online issue the four remote reads, merge with `||` — note that
`freshData[1] || userSessions || []` always picks the remote *array*, even
the empty failure fallback, because arrays are truthy — re-cache, and record
the weight history; create, remotely save and cache a default profile when
none was found (a failing save throws into the catch block, which restores
cached values into the UI and rethrows); finally publish the values and
handle weather.  Result: (new state, remote data-service calls, `true` iff
the call did not rethrow). -/
def loadUserData (uid : String) (isOnline : Bool) (env : LoadEnv) (now : Nat)
    (st : OrchState) : OrchState × List FsCall × Bool :=
  let rp := getCachedUserProfile uid st.svc now
  let rs := getCachedSessions uid rp.2 now
  let rst := getCachedStats uid rs.2 now
  let st := { st with svc := rst.2 }
  if isOnline then
    let calls := fsReadCalls uid
    let userData := jsOrOpt (fsGetUserProfile env.reads) rp.1
    let userSessions := fsGetUserSessions env.reads
    let userWeights := fsGetWeightHistory env.reads
    let userStats := jsOrOpt (fsGetUserStats env.reads) rst.1
    let svc :=
      match userData with
      | some p => cacheUserProfile uid p st.svc now
      | none => st.svc
    let svc := cacheSessions uid userSessions svc now
    let svc :=
      match userStats with
      | some n => cacheStats uid n svc now
      | none => svc
    let st := { st with svc := svc, weightHistory := userWeights }
    match userData with
    | some p => loadFinish true env.weatherRes p userSessions userStats calls now st
    | none =>
      let calls := calls ++ [FsCall.saveProfile uid defaultProfile]
      if env.saveOk then
        let st := { st with svc := cacheUserProfile uid defaultProfile st.svc now }
        loadFinish true env.weatherRes defaultProfile userSessions userStats calls now st
      else
        loadCatch uid calls now st
  else
    match rp.1 with
    | some p => loadFinish false env.weatherRes p (rs.1.getD []) rst.1 [] now st
    | none =>
      let st := { st with svc := cacheUserProfile uid defaultProfile st.svc now }
      loadFinish false env.weatherRes defaultProfile (rs.1.getD []) rst.1 [] now st

/-- Environment of one `handleUserUpdate` call: whether the remote
`saveUserProfile` resolves, and the weather fetch result. -/
structure UpdateEnv where
  saveOk : Bool
  weatherRes : Option Nat
deriving DecidableEq, Repr

/-- The weather tail of `handleUserUpdate`: `if (updatedUser.city !==
user?.city && updatedUser.city)` fetch the new city's weather; on success
set the UI weather and cache it, on failure only warn. -/
def weatherPart (updatedUser : Profile) (user0 : Option Profile)
    (weatherRes : Option Nat) (calls : List FsCall) (now : Nat) (st : OrchState) :
    OrchState × List FsCall × Bool :=
  let oldCity : Option String :=
    match user0 with
    | none => none
    | some u => u.city
  if (updatedUser.city != oldCity) && truthyOptStr updatedUser.city then
    match weatherRes with
    | some w =>
      match updatedUser.city with
      | some c =>
        ({ st with weather := some w, svc := cacheWeatherData c w st.svc now },
          calls, true)
      | none => (st, calls, true)
    | none => (st, calls, true)
  else (st, calls, true)

/-- `handleUserUpdate(updatedUser)` from `App.tsx`: bail out without an
authenticated user; `setUser`, `cacheUserProfile`; online, remotely save
(a rejection jumps to the catch block, which only shows a warning — third
component `false`); offline, enqueue `(update, users, {userId, profile})`
instead; then the weather tail.  The remote call carries `updatedUser`
itself — the `notifications` defaulting in the spread only touches an
opaque field. -/
def handleUserUpdate (authUser : Option String) (isOnline : Bool)
    (updatedUser : Profile) (env : UpdateEnv) (now : Nat) (st : OrchState) :
    OrchState × List FsCall × Bool :=
  match authUser with
  | none => (st, [], true)
  | some uid =>
    let user0 := st.user
    let st := { st with user := some updatedUser }
    let st := { st with svc := cacheUserProfile uid updatedUser st.svc now }
    if isOnline then
      let calls := [FsCall.saveProfile uid updatedUser]
      if env.saveOk then
        weatherPart updatedUser user0 env.weatherRes calls now st
      else (st, calls, false)
    else
      let d : SyncData := ⟨some uid, some updatedUser, none, none, 0⟩
      let st := { st with svc := addToSyncQueue Action.update "users" d st.svc now }
      weatherPart updatedUser user0 env.weatherRes [] now st

/-- `handleActivityComplete` from `App.tsx`: bail out without a user or
weather; `setSessions(prev => [session, ...prev])`; online, remotely add the
session (a rejection jumps to the catch block — third component `false` —
with no cache write and no rollback of the UI sessions); offline, enqueue
`(create, sessions, session)`; then `await loadUserData(...)` (whose own
rethrow is also caught here).  The session record built from the plan and
weather at the call site is the `session` argument. -/
def handleActivityComplete (authUser : Option String) (weatherUI : Option Nat)
    (isOnline : Bool) (session : SyncData) (addOk : Bool) (env : LoadEnv)
    (now : Nat) (st : OrchState) : OrchState × List FsCall × Bool :=
  match authUser, weatherUI with
  | some uid, some _ =>
    let st := { st with sessions := session :: st.sessions }
    if isOnline then
      let calls := [FsCall.addSession session]
      if addOk then
        let r := loadUserData uid isOnline env now st
        (r.1, calls ++ r.2.1, r.2.2)
      else (st, calls, false)
    else
      let st := { st with svc := addToSyncQueue Action.create "sessions" session st.svc now }
      let r := loadUserData uid isOnline env now st
      (r.1, r.2.1, r.2.2)
  | _, _ => (st, [], true)

/-!
## Key disjointness and framing lemmas for the shell's cache keys
-/

theorem append_ne_of_prefix_length {a b : String} (u : String)
    (h : a.data.length ≠ b.data.length) : (a ++ u) ≠ (b ++ u) := by
  intro he
  have h2 := congrArg (fun s => s.data.length) he
  simp only [string_data_append, List.length_append] at h2
  omega

theorem append_left_ne_empty (a u : String) (ha : a.data.length ≠ 0) :
    (a ++ u) ≠ "" := by
  intro he
  have h2 := congrArg (fun s => s.data.length) he
  simp only [string_data_append, List.length_append,
    show ("" : String).data = [] from rfl, List.length_nil] at h2
  omega

theorem profileKey_ne_empty (uid : String) : ("user_profile_" ++ uid) ≠ "" :=
  append_left_ne_empty _ _ (by decide)

theorem syncKey_ne_profileKey (uid : String) :
    SYNC_QUEUE_KEY ≠ "user_profile_" ++ uid :=
  ne_of_data_head rfl (append_data_head "user_profile_" uid 'u' rfl) (by decide)

theorem profileKey_ne_syncKey (uid : String) :
    ("user_profile_" ++ uid) ≠ SYNC_QUEUE_KEY :=
  (syncKey_ne_profileKey uid).symm

theorem profileKey_ne_weatherKey (uid c : String) :
    ("user_profile_" ++ uid) ≠ "weather_" ++ c :=
  ne_of_data_head (append_data_head "user_profile_" uid 'u' rfl)
    (append_data_head "weather_" c 'w' rfl) (by decide)

theorem syncKey_ne_weatherKey (c : String) : SYNC_QUEUE_KEY ≠ "weather_" ++ c :=
  ne_of_data_head rfl (append_data_head "weather_" c 'w' rfl) (by decide)

theorem statsKey_ne_profileKey (uid uid' : String) :
    ("stats_" ++ uid) ≠ "user_profile_" ++ uid' :=
  ne_of_data_head (append_data_head "stats_" uid 's' rfl)
    (append_data_head "user_profile_" uid' 'u' rfl) (by decide)

theorem statsKey_ne_sessionsKey (uid : String) :
    ("stats_" ++ uid) ≠ "sessions_" ++ uid :=
  append_ne_of_prefix_length uid (by decide)

theorem getCachedUserProfile_fst_congr (uid : String) (st2 st1 : ServiceState CVal)
    (now : Nat)
    (h : (get st2 ("user_profile_" ++ uid) now).1 = (get st1 ("user_profile_" ++ uid) now).1) :
    (getCachedUserProfile uid st2 now).1 = (getCachedUserProfile uid st1 now).1 := by
  by_cases hu : uid = "" <;> simp [getCachedUserProfile, hu, h]

theorem getCachedStats_fst_congr (uid : String) (st2 st1 : ServiceState CVal)
    (now : Nat)
    (h : (get st2 ("stats_" ++ uid) now).1 = (get st1 ("stats_" ++ uid) now).1) :
    (getCachedStats uid st2 now).1 = (getCachedStats uid st1 now).1 := by
  by_cases hu : uid = "" <;> simp [getCachedStats, hu, h]

theorem getSyncQueue_fst_congr (st2 st1 : ServiceState CVal) (now : Nat)
    (h : (get st2 SYNC_QUEUE_KEY now).1 = (get st1 SYNC_QUEUE_KEY now).1) :
    (getSyncQueue st2 now).1 = (getSyncQueue st1 now).1 := by
  simp [getSyncQueue, h]

theorem getCachedUserProfile_snd (uid : String) (svc : ServiceState CVal) (now : Nat) :
    (getCachedUserProfile uid svc now).2 =
      if uid = "" then svc else (get svc ("user_profile_" ++ uid) now).2 := by
  by_cases hu : uid = "" <;> simp [getCachedUserProfile, hu]

theorem getCachedSessions_snd (uid : String) (svc : ServiceState CVal) (now : Nat) :
    (getCachedSessions uid svc now).2 =
      if uid = "" then svc else (get svc ("sessions_" ++ uid) now).2 := by
  by_cases hu : uid = "" <;> simp [getCachedSessions, hu]

theorem get_fst_cacheUserProfile (uid : String) (p : Profile)
    (svc : ServiceState CVal) (now now' : Nat) (k : String)
    (hne : k ≠ "user_profile_" ++ uid) :
    (get (cacheUserProfile uid p svc now) k now').1 = (get svc k now').1 := by
  unfold cacheUserProfile
  by_cases hu : uid = ""
  · simp [hu]
  · simp only [hu, if_false]
    exact get_fst_set_other _ _ _ _ _ _ _ hne

theorem get_fst_cacheWeatherData (city : String) (w : Nat)
    (svc : ServiceState CVal) (now now' : Nat) (k : String)
    (hne : ∀ cl, k ≠ "weather_" ++ cl) :
    (get (cacheWeatherData city w svc now) k now').1 = (get svc k now').1 := by
  unfold cacheWeatherData
  by_cases hc : city = ""
  · simp [hc]
  · simp only [hc, if_false]
    exact get_fst_set_other _ _ _ _ _ _ _ (hne _)

theorem get_fst_addToSyncQueue (act : Action) (coll : String) (data : SyncData)
    (svc : ServiceState CVal) (now now' : Nat) (k : String)
    (hk : k ≠ SYNC_QUEUE_KEY) :
    (get (addToSyncQueue act coll data svc now) k now').1 = (get svc k now').1 := by
  unfold addToSyncQueue getSyncQueue
  by_cases hc : coll = ""
  · simp [hc]
  · simp only [hc, if_false]
    rw [get_fst_set_other _ _ _ _ _ _ _ hk]
    exact get_fst_get_other _ _ _ _ _ hk

theorem getCachedUserProfile_after_cache (uid : String) (p : Profile)
    (svc : ServiceState CVal) (now : Nat) (hu : uid ≠ "") :
    (getCachedUserProfile uid (cacheUserProfile uid p svc now) now).1 = some p := by
  unfold getCachedUserProfile cacheUserProfile
  simp only [hu, if_false]
  rw [get_set_same svc ("user_profile_" ++ uid) (CVal.profile p) (some 48) now
    (profileKey_ne_empty uid)]

theorem getSyncQueue_after_add (act : Action) (coll : String) (data : SyncData)
    (svc : ServiceState CVal) (now : Nat) (hc : coll ≠ "") :
    (getSyncQueue (addToSyncQueue act coll data svc now) now).1 =
      (getSyncQueue svc now).1 ++ [⟨toString now, act, coll, data, now, 0⟩] := by
  unfold addToSyncQueue
  simp only [hc, if_false]
  unfold getSyncQueue
  simp only [get_set_same _ SYNC_QUEUE_KEY _ none now
    (show SYNC_QUEUE_KEY ≠ "" by decide)]

theorem weatherPart_proj (up : Profile) (u0 : Option Profile)
    (wres : Option Nat) (calls : List FsCall) (now : Nat) (st : OrchState) :
    (weatherPart up u0 wres calls now st).1.user = st.user ∧
    (weatherPart up u0 wres calls now st).2.1 = calls ∧
    (weatherPart up u0 wres calls now st).2.2 = true := by
  unfold weatherPart
  cases h : ((up.city != (match u0 with | none => none | some u => u.city)) &&
      truthyOptStr up.city)
  · simp [h]
  · simp only [h, if_true]
    rcases wres with _ | w
    · simp
    · rcases up.city with _ | c <;> simp

theorem get_fst_weatherPart (up : Profile) (u0 : Option Profile)
    (wres : Option Nat) (calls : List FsCall) (now now' : Nat) (st : OrchState)
    (k : String) (hk : ∀ cl, k ≠ "weather_" ++ cl) :
    (get (weatherPart up u0 wres calls now st).1.svc k now').1 =
      (get st.svc k now').1 := by
  unfold weatherPart
  cases h : ((up.city != (match u0 with | none => none | some u => u.city)) &&
      truthyOptStr up.city)
  · simp [h]
  · simp only [h, if_true]
    rcases wres with _ | w
    · simp
    · rcases up.city with _ | c
      · simp
      · simp [get_fst_cacheWeatherData c w st.svc now now' k hk]

@[simp] theorem applyCachedWeather_user (o : Option Nat) (st : OrchState) :
    (applyCachedWeather o st).user = st.user := by
  rcases o with _ | w <;> rfl

@[simp] theorem applyCachedWeather_sessions (o : Option Nat) (st : OrchState) :
    (applyCachedWeather o st).sessions = st.sessions := by
  rcases o with _ | w <;> rfl

@[simp] theorem applyCachedWeather_stats (o : Option Nat) (st : OrchState) :
    (applyCachedWeather o st).stats = st.stats := by
  rcases o with _ | w <;> rfl

@[simp] theorem applyCachedWeather_svc (o : Option Nat) (st : OrchState) :
    (applyCachedWeather o st).svc = st.svc := by
  rcases o with _ | w <;> rfl

theorem loadFinish_proj (online : Bool) (wres : Option Nat) (p : Profile)
    (ss : List SyncData) (stats : Option Nat) (calls : List FsCall)
    (now : Nat) (st : OrchState) :
    (loadFinish online wres p ss stats calls now st).1.user = some p ∧
    (loadFinish online wres p ss stats calls now st).1.sessions = ss ∧
    (loadFinish online wres p ss stats calls now st).1.stats = stats ∧
    (loadFinish online wres p ss stats calls now st).2.1 = calls ∧
    (loadFinish online wres p ss stats calls now st).2.2 = true := by
  unfold loadFinish
  cases online <;> rcases wres with _ | w <;> simp

/-- The `{userId, profile}` payload `handleUserUpdate` enqueues offline. -/
def offlineQueueData (uid : String) (p : Profile) : SyncData :=
  ⟨some uid, some p, none, none, 0⟩

/-- The shell state after the synchronous part of the offline branch of
`handleUserUpdate`: UI user set, profile cached, queue item appended. -/
def offlineUpdatedState (uid : String) (p : Profile) (now : Nat) (st : OrchState) :
    OrchState :=
  { st with
    user := some p
    svc := (addToSyncQueue Action.update "users" (offlineQueueData uid p)
      (cacheUserProfile uid p st.svc now) now) }

/-- Unfolding of the offline branch of `handleUserUpdate`. -/
theorem handleUserUpdate_offline_shape (uid : String) (p : Profile)
    (env : UpdateEnv) (now : Nat) (st : OrchState) :
    handleUserUpdate (some uid) false p env now st =
      weatherPart p st.user env.weatherRes [] now
        (offlineUpdatedState uid p now st) := rfl

/-- After the offline branch of `handleUserUpdate`, the profile cache entry
holds the updated profile: the sync-queue write and any weather write land
under different keys. -/
theorem cachedProfile_after_offline_update (uid : String) (p : Profile)
    (env : UpdateEnv) (now : Nat) (st : OrchState) (hu : uid ≠ "") :
    (getCachedUserProfile uid
      (handleUserUpdate (some uid) false p env now st).1.svc now).1 = some p := by
  rw [handleUserUpdate_offline_shape]
  have h1 := getCachedUserProfile_fst_congr uid _ _ now
    (get_fst_weatherPart p st.user env.weatherRes [] now now
      (offlineUpdatedState uid p now st)
      ("user_profile_" ++ uid) (fun cl => profileKey_ne_weatherKey uid cl))
  have h2 := getCachedUserProfile_fst_congr uid
    (addToSyncQueue Action.update "users" (offlineQueueData uid p)
      (cacheUserProfile uid p st.svc now) now)
    (cacheUserProfile uid p st.svc now) now
    (get_fst_addToSyncQueue Action.update "users" (offlineQueueData uid p)
      (cacheUserProfile uid p st.svc now) now now
      ("user_profile_" ++ uid) (profileKey_ne_syncKey uid))
  exact h1.trans (h2.trans (getCachedUserProfile_after_cache uid p st.svc now hu))

/-- C4: a profile save while offline makes zero remote data-service calls,
succeeds locally (no catch), publishes the profile to the UI, updates the
profile cache entry, and appends exactly one `(update, users, retryCount=0)`
item at the tail of the persisted sync queue. -/
theorem offline_profile_save (uid : String) (p : Profile) (env : UpdateEnv)
    (now : Nat) (st : OrchState) (hu : uid ≠ "") :
    (handleUserUpdate (some uid) false p env now st).2.1 = [] ∧
    (handleUserUpdate (some uid) false p env now st).2.2 = true ∧
    (handleUserUpdate (some uid) false p env now st).1.user = some p ∧
    (getCachedUserProfile uid
      (handleUserUpdate (some uid) false p env now st).1.svc now).1 = some p ∧
    (getSyncQueue (handleUserUpdate (some uid) false p env now st).1.svc now).1 =
      (getSyncQueue st.svc now).1 ++
        [⟨toString now, Action.update, "users",
          ⟨some uid, some p, none, none, 0⟩, now, 0⟩] := by
  obtain ⟨hwu, hwc, hwo⟩ := weatherPart_proj p st.user env.weatherRes [] now
    (offlineUpdatedState uid p now st)
  refine ⟨?_, ?_, ?_, cachedProfile_after_offline_update uid p env now st hu, ?_⟩
  · rw [handleUserUpdate_offline_shape]; exact hwc
  · rw [handleUserUpdate_offline_shape]; exact hwo
  · rw [handleUserUpdate_offline_shape]; exact hwu
  · rw [handleUserUpdate_offline_shape]
    have h1 := getSyncQueue_fst_congr _ _ now
      (get_fst_weatherPart p st.user env.weatherRes [] now now
        (offlineUpdatedState uid p now st)
        SYNC_QUEUE_KEY (fun cl => syncKey_ne_weatherKey cl))
    have h2 := getSyncQueue_after_add Action.update "users"
      (offlineQueueData uid p) (cacheUserProfile uid p st.svc now) now
      (by decide)
    have h3 := getSyncQueue_fst_congr (cacheUserProfile uid p st.svc now) st.svc now
      (get_fst_cacheUserProfile uid p st.svc now now SYNC_QUEUE_KEY
        (syncKey_ne_profileKey uid))
    rw [h1]
    refine h2.trans ?_
    rw [h3]
    rfl

/-- Concrete initial state: no UI data, `localStorage` healthy and empty. -/
def st0 : OrchState := ⟨none, [], none, [], none, ⟨true, [], []⟩⟩

/-- Witness for C4 at a concrete offline save. -/
theorem offline_profile_save_witness :
    (handleUserUpdate (some "u") false defaultProfile ⟨true, none⟩ 5 st0).2.1 = [] ∧
    (handleUserUpdate (some "u") false defaultProfile ⟨true, none⟩ 5 st0).2.2 = true ∧
    (handleUserUpdate (some "u") false defaultProfile ⟨true, none⟩ 5 st0).1.user =
      some defaultProfile ∧
    (getCachedUserProfile "u"
      (handleUserUpdate (some "u") false defaultProfile ⟨true, none⟩ 5 st0).1.svc 5).1 =
      some defaultProfile ∧
    (getSyncQueue (handleUserUpdate (some "u") false defaultProfile ⟨true, none⟩ 5 st0).1.svc 5).1 =
      (getSyncQueue st0.svc 5).1 ++
        [⟨toString 5, Action.update, "users",
          ⟨some "u", some defaultProfile, none, none, 0⟩, 5, 0⟩] :=
  offline_profile_save "u" defaultProfile ⟨true, none⟩ 5 st0 (by decide)

/-- C6 (amended): the profile-update path does keep cache and UI in
agreement — on every branch of `handleUserUpdate` (offline, online with the
remote save failing, online with it succeeding) the UI user and the cached
profile entry both end up as the updated profile. -/
theorem profile_mutation_cache_ui_agreement (uid : String) (p : Profile)
    (online : Bool) (env : UpdateEnv) (now : Nat) (st : OrchState) (hu : uid ≠ "") :
    (handleUserUpdate (some uid) online p env now st).1.user = some p ∧
    (getCachedUserProfile uid
      (handleUserUpdate (some uid) online p env now st).1.svc now).1 = some p := by
  cases online
  · refine ⟨?_, cachedProfile_after_offline_update uid p env now st hu⟩
    rw [handleUserUpdate_offline_shape]
    exact (weatherPart_proj p st.user env.weatherRes [] now _).1
  · cases hs : env.saveOk
    · have hshape : handleUserUpdate (some uid) true p env now st =
          ({ st with user := some p, svc := cacheUserProfile uid p st.svc now },
            [FsCall.saveProfile uid p], false) := by
        simp [handleUserUpdate, hs]
      rw [hshape]
      exact ⟨rfl, getCachedUserProfile_after_cache uid p st.svc now hu⟩
    · have hshape : handleUserUpdate (some uid) true p env now st =
          weatherPart p st.user env.weatherRes [FsCall.saveProfile uid p] now
            { st with user := some p, svc := cacheUserProfile uid p st.svc now } := by
        simp [handleUserUpdate, hs]
      rw [hshape]
      constructor
      · exact (weatherPart_proj p st.user env.weatherRes _ now _).1
      · have h1 := getCachedUserProfile_fst_congr uid _ _ now
          (get_fst_weatherPart p st.user env.weatherRes [FsCall.saveProfile uid p] now now
            { st with user := some p, svc := cacheUserProfile uid p st.svc now }
            ("user_profile_" ++ uid) (fun cl => profileKey_ne_weatherKey uid cl))
        exact h1.trans (getCachedUserProfile_after_cache uid p st.svc now hu)

/-- Witness for the amended C6 on the online path with a failing save. -/
theorem profile_mutation_agreement_witness :
    (handleUserUpdate (some "u") true defaultProfile ⟨false, none⟩ 5 st0).1.user =
      some defaultProfile ∧
    (getCachedUserProfile "u"
      (handleUserUpdate (some "u") true defaultProfile ⟨false, none⟩ 5 st0).1.svc 5).1 =
      some defaultProfile :=
  profile_mutation_cache_ui_agreement "u" defaultProfile true ⟨false, none⟩ 5 st0
    (by decide)

/-- A concrete activity session record (opaque content `7`). -/
def s0 : SyncData := ⟨some "u", none, none, none, 7⟩

/-- A remote-read environment in which every read endpoint fails. -/
def readsFail : RemoteReads := ⟨true, none, true, [], true, [], true, none⟩

/-- A load environment with failing reads. -/
def envFail : LoadEnv := ⟨readsFail, true, none⟩

/-- C6 (counterexample): completing an activity while online with the remote
`addActivitySession` rejecting leaves a reachable state whose UI sessions
list shows the new session while the sessions cache holds nothing — the
mutation updated the in-memory UI state but never wrote the cache, so cache
and UI disagree for the sessions resource. -/
theorem activity_complete_cache_ui_disagreement :
    (handleActivityComplete (some "u") (some 0) true s0 false envFail 5 st0).1.sessions =
      [s0] ∧
    (getCachedSessions "u"
      (handleActivityComplete (some "u") (some 0) true s0 false envFail 5 st0).1.svc 5).1 =
      none ∧
    (handleActivityComplete (some "u") (some 0) true s0 false envFail 5 st0).2.1 =
      [FsCall.addSession s0] := by
  decide

/-- The cached-stats read of `loadUserData` sees the same value it would see
on the initial store: the two cache reads before it touch only the profile
and sessions keys. -/
theorem cachedStats_through_reads (uid : String) (st : OrchState) (now : Nat) :
    (getCachedStats uid
      (getCachedSessions uid (getCachedUserProfile uid st.svc now).2 now).2 now).1 =
      (getCachedStats uid st.svc now).1 := by
  by_cases hu : uid = ""
  · simp [getCachedUserProfile, getCachedSessions, hu]
  · have h1 : (getCachedSessions uid (getCachedUserProfile uid st.svc now).2 now).2 =
        (get (getCachedUserProfile uid st.svc now).2 ("sessions_" ++ uid) now).2 := by
      rw [getCachedSessions_snd]
      simp [hu]
    have h2 : (getCachedUserProfile uid st.svc now).2 =
        (get st.svc ("user_profile_" ++ uid) now).2 := by
      rw [getCachedUserProfile_snd]
      simp [hu]
    rw [h1, h2]
    exact (getCachedStats_fst_congr uid _ ((get st.svc ("user_profile_" ++ uid) now).2) now
        (get_fst_get_other _ _ _ now now (statsKey_ne_sessionsKey uid))).trans
      (getCachedStats_fst_congr uid ((get st.svc ("user_profile_" ++ uid) now).2) st.svc now
        (get_fst_get_other _ _ _ now now (statsKey_ne_profileKey uid uid)))

/-- C5 (amended): when the cache holds a profile and stats for the user and
every remote read fails, an online `loadUserData` still completes without
rethrowing, returns the cached profile and stats to the UI, and makes only
the four read calls — but the sessions it publishes are the remote layer's
empty-array failure fallback, which (being a truthy array) replaces the
cached sessions rather than keeping them. -/
theorem read_degradation (uid : String) (p : Profile) (n : Nat) (env : LoadEnv)
    (now : Nat) (st : OrchState)
    (hp : (getCachedUserProfile uid st.svc now).1 = some p)
    (hn : (getCachedStats uid st.svc now).1 = some n)
    (hpf : env.reads.profileFails = true) (hsf : env.reads.sessionsFails = true)
    (hwf : env.reads.weightsFails = true) (hstf : env.reads.statsFails = true) :
    (loadUserData uid true env now st).2.2 = true ∧
    (loadUserData uid true env now st).1.user = some p ∧
    (loadUserData uid true env now st).1.stats = some n ∧
    (loadUserData uid true env now st).1.sessions = [] ∧
    (loadUserData uid true env now st).2.1 = fsReadCalls uid := by
  have hstats := (cachedStats_through_reads uid st now).trans hn
  unfold loadUserData
  simp only [fsGetUserProfile, fsGetUserSessions, fsGetWeightHistory, fsGetUserStats,
    hpf, hsf, hwf, hstf, if_true, hp, hstats, jsOrOpt]
  refine ⟨?_, ?_, ?_, ?_, ?_⟩
  · exact (loadFinish_proj _ _ _ _ _ _ _ _).2.2.2.2
  · exact (loadFinish_proj _ _ _ _ _ _ _ _).1
  · exact (loadFinish_proj _ _ _ _ _ _ _ _).2.2.1
  · exact (loadFinish_proj _ _ _ _ _ _ _ _).2.1
  · exact (loadFinish_proj _ _ _ _ _ _ _ _).2.2.2.1

/-- A concrete cached profile. -/
def p0 : Profile := ⟨some "Paris", 1⟩

/-- A concrete store holding a profile, one cached session and stats for
user `u` (no TTLs). -/
def svcC : ServiceState CVal :=
  ⟨true,
    [("fitness_app_user_profile_u", ⟨CVal.profile p0, 0, none⟩),
      ("fitness_app_sessions_u", ⟨CVal.sessions [s0], 0, none⟩),
      ("fitness_app_stats_u", ⟨CVal.stats 4, 0, none⟩)], []⟩

/-- Shell state over `svcC` with empty UI. -/
def stC : OrchState := ⟨none, [], none, [], none, svcC⟩

/-- Witness for the amended C5 at the concrete cached state. -/
theorem read_degradation_witness :
    (loadUserData "u" true envFail 5 stC).2.2 = true ∧
    (loadUserData "u" true envFail 5 stC).1.user = some p0 ∧
    (loadUserData "u" true envFail 5 stC).1.stats = some 4 ∧
    (loadUserData "u" true envFail 5 stC).1.sessions = [] ∧
    (loadUserData "u" true envFail 5 stC).2.1 = fsReadCalls "u" :=
  read_degradation "u" p0 4 envFail 5 stC (by decide) (by decide)
    rfl rfl rfl rfl

/-- C5 (counterexample): with a non-empty cached sessions list and a failing
remote, the load does *not* keep the cached sessions: `getUserSessions`'s
`[]` failure fallback is a truthy array, so `freshData[1] || userSessions`
selects it, the UI shows no sessions, and the empty list even overwrites the
sessions cache entry.  (The profile resource is kept, and no error is
propagated — the load still reports success.) -/
theorem remote_sessions_failure_clobbers_cache :
    (getCachedSessions "u" stC.svc 5).1 = some [s0] ∧
    (loadUserData "u" true envFail 5 stC).1.sessions = [] ∧
    (getCachedSessions "u" (loadUserData "u" true envFail 5 stC).1.svc 5).1 =
      some [] ∧
    (loadUserData "u" true envFail 5 stC).2.2 = true := by
  decide

end FitApp
